import Mathlib

/-!
Verification of the absorbing-boundary-layer generator of the DRM mesh
builder (`MeshMaker.addAbsorbingLayer` / `_addRectangularAbsorbingLayer` in
`src/meshmaker/components/MeshMaker.py`, with the interface stitching also
mirrored in `src/meshmaker/components/DRM/DRM.py`).

The embedding uses exact rational coordinates (`ℚ`) for the floating-point
geometry of the source, `Nat` with explicit `% 2 ^ 16` for the numpy
`uint16` tag arrays, and an explicit error type separating `ValueError`
(validation) from `NotImplementedError`.  Euclidean distances of the
kd-tree queries are modelled by squared distances, so the source threshold
`1e-6` on a distance becomes `1e-12` on a squared distance.

Rational arithmetic is spelled with kernel-computable wrappers `qadd`,
`qsub`, `qmul`, `qdiv`, `qabs`, `qmin`, `qmax`, `qceil` (the library
operations on `ℚ` are irreducible, which would block evaluation of the
model on concrete inputs); each wrapper is proved equal to the
corresponding library operation right below its definition.
-/

/-- Addition on `ℚ` by numerator/denominator arithmetic. -/
def qadd (a b : ℚ) : ℚ := Rat.divInt (a.num * b.den + b.num * a.den) (a.den * b.den)

/-- Subtraction on `ℚ` by numerator/denominator arithmetic. -/
def qsub (a b : ℚ) : ℚ := Rat.divInt (a.num * b.den - b.num * a.den) (a.den * b.den)

/-- Multiplication on `ℚ` by numerator/denominator arithmetic. -/
def qmul (a b : ℚ) : ℚ := Rat.divInt (a.num * b.num) (a.den * b.den)

/-- Division on `ℚ` by numerator/denominator arithmetic. -/
def qdiv (a b : ℚ) : ℚ := Rat.divInt (a.num * b.den) (a.den * b.num)

/-- Absolute value on `ℚ` (numpy `abs`). -/
def qabs (a : ℚ) : ℚ := if a < 0 then -a else a

/-- Minimum on `ℚ`. -/
def qmin (a b : ℚ) : ℚ := if a ≤ b then a else b

/-- Maximum on `ℚ`. -/
def qmax (a b : ℚ) : ℚ := if a ≤ b then b else a

/-- Ceiling of a rational, computed on the numerator and denominator. -/
def qceil (a : ℚ) : Int := -((-a.num).fdiv a.den)

/-- A 3D point with exact rational coordinates. -/
structure Pt3 where
  x : ℚ
  y : ℚ
  z : ℚ
deriving DecidableEq, Repr

/-- An axis-aligned bounding box, in the VTK `bounds` order
`(xmin, xmax, ymin, ymax, zmin, zmax)`. -/
structure Box3 where
  xmin : ℚ
  xmax : ℚ
  ymin : ℚ
  ymax : ℚ
  zmin : ℚ
  zmax : ℚ
deriving DecidableEq, Repr

/-- The tolerance `eps = 1e-6` used throughout `_addRectangularAbsorbingLayer`. -/
def eps6 : ℚ := Rat.divInt 1 1000000

/-- Squared-distance form of the stitching threshold `1e-6` (the source
compares Euclidean distances against `1e-6`; on squared distances the
equivalent threshold is `1e-12`). -/
def tolSq : ℚ := Rat.divInt 1 1000000000000

/-- Bounding box of a list of points (`mesh.bounds` / `cellCenters.bounds`).
The empty list gets the degenerate zero box; the source would fail earlier
on an empty mesh. -/
def bboxOf : List Pt3 → Box3
  | [] => ⟨0, 0, 0, 0, 0, 0⟩
  | p :: ps =>
    ps.foldl
      (fun b q =>
        ⟨qmin b.xmin q.x, qmax b.xmax q.x, qmin b.ymin q.y, qmax b.ymax q.y,
         qmin b.zmin q.z, qmax b.zmax q.z⟩)
      ⟨p.x, p.x, p.y, p.y, p.z, p.z⟩

/-- A hexahedral cell of the structured mesh, recorded by two opposite
corners (all cells handled by the generator are axis-aligned boxes). -/
structure BoxCell where
  lo : Pt3
  hi : Pt3
deriving DecidableEq, Repr

/-- Cell centroid (`cell_centers` of an axis-aligned cell). -/
def centroid (c : BoxCell) : Pt3 :=
  ⟨qdiv (qadd c.lo.x c.hi.x) 2, qdiv (qadd c.lo.y c.hi.y) 2, qdiv (qadd c.lo.z c.hi.z) 2⟩

/-- VTK bounds of a cell: per-axis min/max of its corners. -/
def cellBounds (c : BoxCell) : Box3 :=
  ⟨qmin c.lo.x c.hi.x, qmax c.lo.x c.hi.x, qmin c.lo.y c.hi.y, qmax c.lo.y c.hi.y,
   qmin c.lo.z c.hi.z, qmax c.lo.z c.hi.z⟩

/-- The eight corner points of a cell. -/
def corners (c : BoxCell) : List Pt3 :=
  [⟨c.lo.x, c.lo.y, c.lo.z⟩, ⟨c.hi.x, c.lo.y, c.lo.z⟩,
   ⟨c.lo.x, c.hi.y, c.lo.z⟩, ⟨c.hi.x, c.hi.y, c.lo.z⟩,
   ⟨c.lo.x, c.lo.y, c.hi.z⟩, ⟨c.hi.x, c.lo.y, c.hi.z⟩,
   ⟨c.lo.x, c.hi.y, c.hi.z⟩, ⟨c.hi.x, c.hi.y, c.hi.z⟩]

/-- Membership of a point in a closed box. -/
def inBox (b : Box3) (p : Pt3) : Bool :=
  decide (b.xmin ≤ p.x) && decide (p.x ≤ b.xmax) &&
  decide (b.ymin ≤ p.y) && decide (p.y ≤ b.ymax) &&
  decide (b.zmin ≤ p.z) && decide (p.z ≤ b.zmax)

/-- Closed-interval intersection test of two boxes, the criterion of VTK
`FindCellsWithinBounds` (used by `Absorbing.find_cells_within_bounds`):
a cell is reported when its bounds intersect the query box. -/
def overlaps (a b : Box3) : Bool :=
  decide (a.xmin ≤ b.xmax) && decide (b.xmin ≤ a.xmax) &&
  decide (a.ymin ≤ b.ymax) && decide (b.ymin ≤ a.ymax) &&
  decide (a.zmin ≤ b.zmax) && decide (b.zmin ≤ a.zmax)

/-- Boolean boundary-face memberships of a cell center (source lines
`left = abs(cellCentersCoords[:,0] - xmin) < eps` etc.; the box is the
bounding box of the clipped cell centers, the tolerance is `eps = 1e-6`). -/
structure FaceFlags where
  left : Bool
  right : Bool
  front : Bool
  back : Bool
  bottom : Bool
deriving DecidableEq, Repr

/-- Compute the five face-membership booleans of one cell center. -/
def faceFlags (eps : ℚ) (b : Box3) (p : Pt3) : FaceFlags where
  left := decide (qabs (qsub p.x b.xmin) < eps)
  right := decide (qabs (qsub p.x b.xmax) < eps)
  front := decide (qabs (qsub p.y b.ymin) < eps)
  back := decide (qabs (qsub p.y b.ymax) < eps)
  bottom := decide (qabs (qsub p.z b.zmin) < eps)

/-- The absorbing-region code of a cell, from its face booleans.  This
mirrors the source exactly: seventeen sequential masked assignments into
the cell array `absRegion` of the clipped mesh (initialised to 0), so a later assignment
overwrites an earlier one whenever several masks hold. -/
def absRegion (f : FaceFlags) : Nat :=
  let r := 0
  let r := if f.left then 1 else r
  let r := if f.right then 2 else r
  let r := if f.front then 3 else r
  let r := if f.back then 4 else r
  let r := if f.bottom then 5 else r
  let r := if f.left && f.front then 6 else r
  let r := if f.left && f.back then 7 else r
  let r := if f.right && f.front then 8 else r
  let r := if f.right && f.back then 9 else r
  let r := if f.left && f.bottom then 10 else r
  let r := if f.right && f.bottom then 11 else r
  let r := if f.front && f.bottom then 12 else r
  let r := if f.back && f.bottom then 13 else r
  let r := if f.left && f.front && f.bottom then 14 else r
  let r := if f.left && f.back && f.bottom then 15 else r
  let r := if f.right && f.front && f.bottom then 16 else r
  let r := if f.right && f.back && f.bottom then 17 else r
  r

/-- The fixed 17-entry outward-normal table of the source. -/
def normalsTable : List (Int × Int × Int) :=
  [(-1, 0, 0), (1, 0, 0), (0, -1, 0), (0, 1, 0), (0, 0, -1),
   (-1, -1, 0), (-1, 1, 0), (1, -1, 0), (1, 1, 0),
   (-1, 0, -1), (1, 0, -1), (0, -1, -1), (0, 1, -1),
   (-1, -1, -1), (-1, 1, -1), (1, -1, -1), (1, 1, -1)]

/-- `normals[absregion - 1]` of the source.  For region code 0 the Python
index is `-1`, which selects the LAST table entry `(1, 1, -1)` by Python
negative indexing; the model reproduces that behaviour. -/
def normalOf (region : Nat) : Int × Int × Int :=
  if region = 0 then (1, 1, -1) else normalsTable.getD (region - 1) (0, 0, 0)

/-- `numpy.arange(start, stop, step)` over exact rationals (positive step):
the values `start + k * step` for `k` below the ceiling of
`(stop - start) / step`.  A non-positive step never occurs for a
non-degenerate cell; the model returns the empty list there. -/
def arange (start stop step : ℚ) : List ℚ :=
  if 0 < step then
    (List.range (qceil (qdiv (qsub stop start) step)).toNat).map fun k =>
      qadd start (qmul (Rat.divInt k 1) step)
  else []

/-- Consecutive pairs of a list of grid coordinates. -/
def consecPairs : List ℚ → List (ℚ × ℚ)
  | a :: b :: rest => (a, b) :: consecPairs (b :: rest)
  | _ => []

/-- The cells of a structured grid with the given axis subdivisions. -/
def gridCells (xs ys zs : List ℚ) : List BoxCell :=
  (consecPairs xs).flatMap fun xp =>
    (consecPairs ys).flatMap fun yp =>
      (consecPairs zs).map fun zp =>
        ⟨⟨xp.1, yp.1, zp.1⟩, ⟨xp.2, yp.2, zp.2⟩⟩

/-- One loop iteration of the extruder: from a boundary cell and its region
code, build the structured extrusion block.  Mirrors the source: cell sizes
`dx, dy, dz` from the cell bounds, corner offsets `normal * numLayers *
(dx, dy, dz)`, per-axis `arange(min, max + 1e-6, d)`, then the structured
grid over those axes. -/
def extrudeCell (numLayers : Nat) (region : Nat) (c : BoxCell) : List BoxCell :=
  let b := cellBounds c
  let dx := qabs (qsub b.xmax b.xmin)
  let dy := qabs (qsub b.ymax b.ymin)
  let dz := qabs (qsub b.zmax b.zmin)
  let n := normalOf region
  let ox := qmul (qmul (Rat.divInt n.1 1) (Rat.divInt numLayers 1)) dx
  let oy := qmul (qmul (Rat.divInt n.2.1 1) (Rat.divInt numLayers 1)) dy
  let oz := qmul (qmul (Rat.divInt n.2.2 1) (Rat.divInt numLayers 1)) dz
  gridCells
    (arange (qmin b.xmin (qadd b.xmin ox)) (qadd (qmax b.xmax (qadd b.xmax ox)) eps6) dx)
    (arange (qmin b.ymin (qadd b.ymin oy)) (qadd (qmax b.ymax (qadd b.ymax oy)) eps6) dy)
    (arange (qmin b.zmin (qadd b.zmin oz)) (qadd (qmax b.zmax (qadd b.zmax oz)) eps6) dz)

/-- Region codes of the clipped boundary cells: face flags of each cell
center against the bounding box of all cell centers, combined by
`absRegion`. -/
def clippedRegionsOf (cells : List BoxCell) : List Nat :=
  let centers := cells.map centroid
  let cb := bboxOf centers
  centers.map fun p => absRegion (faceFlags eps6 cb p)

/-- All extrusion blocks of the shell, concatenated
(`MultiBlock` + `combine`; combining only merges points, the cell list is
the concatenation of the per-block cell lists). -/
def buildShellCells (numLayers : Nat) (cells : List BoxCell) : List BoxCell :=
  (cells.zip (clippedRegionsOf cells)).flatMap fun cr => extrudeCell numLayers cr.2 cr.1

/-- The shell after the interior-removal step: drop every shell cell
reported by `find_cells_within_bounds(cellCenters.bounds)`, i.e. every cell
whose bounds intersect the bounding box of the clipped-mesh CELL CENTERS
(not the bounding box of the mesh itself). -/
def shellAfterRemoval (numLayers : Nat) (cells : List BoxCell) : List BoxCell :=
  let cb := bboxOf (cells.map centroid)
  (buildShellCells numLayers cells).filter fun c => !(overlaps (cellBounds c) cb)

/-- Squared Euclidean distance between two points (the kd-tree distances of
the source, squared to stay in `ℚ`). -/
def sqDist (p q : Pt3) : ℚ :=
  qadd (qadd (qmul (qsub p.x q.x) (qsub p.x q.x)) (qmul (qsub p.y q.y) (qsub p.y q.y)))
    (qmul (qsub p.z q.z) (qsub p.z q.z))

/-- Insert one candidate `(index, squared distance)` into the running pair
of the two best candidates, keeping the earlier index on ties. -/
def insert2 (acc : Option (Nat × ℚ) × Option (Nat × ℚ)) (c : Nat × ℚ) :
    Option (Nat × ℚ) × Option (Nat × ℚ) :=
  match acc with
  | (none, _) => (some c, none)
  | (some b, none) => if c.2 < b.2 then (some c, some b) else (some b, some c)
  | (some b, some s) =>
    if c.2 < b.2 then (some c, some b)
    else if c.2 < s.2 then (some b, some c)
    else (some b, some s)

/-- Helper of `nearest2`: scan the points with their indices. -/
def nearest2Aux (q : Pt3) : List Pt3 → Nat → Option (Nat × ℚ) × Option (Nat × ℚ) →
    Option (Nat × ℚ) × Option (Nat × ℚ)
  | [], _, acc => acc
  | p :: ps, i, acc => nearest2Aux q ps (i + 1) (insert2 acc (i, sqDist q p))

/-- The `k = 2` nearest-neighbor query (`KDTree.query(..., k=2)`) over the
merged mesh points: the two points of smallest squared distance to `q`,
ties broken towards the smaller index, each as `(index, squared distance)`.
With fewer than two points the model returns a junk pair; every theorem
about the stitcher assumes at least two merged points. -/
def nearest2 (pts : List Pt3) (q : Pt3) : (Nat × ℚ) × (Nat × ℚ) :=
  match nearest2Aux q pts 0 (none, none) with
  | (some b, some s) => (b, s)
  | _ => ((0, 0), (0, 0))

/-- Interface points of the PML stitcher: the source selects points of the
interior mesh NOT strictly inside the shrunk bounding box (margin `eps` on
x, y and min-z, `+10` on max-z), via `mask` and `where(~mask)`. -/
def interfacePointsOf (pts : List Pt3) : List Pt3 :=
  let b := bboxOf pts
  pts.filter fun p =>
    !(decide (qadd b.xmin eps6 < p.x) && decide (p.x < qsub b.xmax eps6) &&
      decide (qadd b.ymin eps6 < p.y) && decide (p.y < qsub b.ymax eps6) &&
      decide (qadd b.zmin eps6 < p.z) && decide (p.z < qadd b.zmax 10))

/-- The two failure modes of the stitching loop: the geometric-consistency
check (`distances.max() > 1e-6`) and the DOF-combination check. -/
inductive StitchErr where
  | geometric : StitchErr
  | ndfMismatch : StitchErr
deriving DecidableEq, Repr

/-- An equal-DOF constraint record
(`create_equal_dof(masterNode, [slaveNode], [1,2,3])`); node numbers are
1-based (`index + 1`). -/
structure EqualDof where
  master : Nat
  slaves : List Nat
  dofs : List Nat
deriving DecidableEq, Repr

/-- One iteration of the equal-DOF loop, for one interface point whose two
nearest merged-mesh point indices are `i0` (nearest) and `i1` (second).
Mirrors the source: `if ndf1 == 9 and ndf2 == 3:` makes `index[1] + 1` the
master and `index[0] + 1` the slave; `elif ndf1 == 3 and ndf2 == 9:` makes
`index[0] + 1` the master and `index[1] + 1` the slave; anything else
raises.  (So the master is always the `ndf == 3` node and the slave the
`ndf == 9` node.) -/
def stitchPair (ndf : Nat → Nat) (i0 i1 : Nat) : Except StitchErr EqualDof :=
  if ndf i0 = 9 ∧ ndf i1 = 3 then .ok ⟨i1 + 1, [i0 + 1], [1, 2, 3]⟩
  else if ndf i0 = 3 ∧ ndf i1 = 9 then .ok ⟨i0 + 1, [i1 + 1], [1, 2, 3]⟩
  else .error .ndfMismatch

/-- The equal-DOF creation loop over all neighbor index pairs, collecting
the constraints created before a failure (the source registers each
constraint as it goes, so constraints made before a raise persist). -/
def stitchRun (ndf : Nat → Nat) : List (Nat × Nat) → List EqualDof × Option StitchErr
  | [] => ([], none)
  | p :: rest =>
    match stitchPair ndf p.1 p.2 with
    | .error e => ([], some e)
    | .ok c =>
      let r := stitchRun ndf rest
      (c :: r.1, r.2)

/-- Maximum squared neighbor distance over all interface-point queries
(`distances.max()`; the second neighbor is always the farther one). -/
def stitchMaxSq (pts : List Pt3) (ipts : List Pt3) : ℚ :=
  (ipts.map fun p => (nearest2 pts p).2.2).foldl qmax 0

/-- The whole PML stitching phase: query two nearest neighbors per
interface point, fail on the geometric-consistency check if the largest
distance exceeds the tolerance, otherwise run the equal-DOF loop. -/
def stitchPhase (pts : List Pt3) (ndf : Nat → Nat) (ipts : List Pt3) :
    List EqualDof × Option StitchErr :=
  if tolSq < stitchMaxSq pts ipts then ([], some .geometric)
  else stitchRun ndf (ipts.map fun p => ((nearest2 pts p).1.1, (nearest2 pts p).2.1))

/-- Reduction of a tag to numpy `uint16`
(`astype(uint16)` / storing into a `uint16` array wraps modulo `2 ^ 16`). -/
def u16 (n : Nat) : Nat := n % 65536

/-- The tag-broadcast loop of the assembler: for each extrusion block,
`MaterialTag[offset:offset + n_cells] = repeat(tag, n_cells).astype(uint16)`
(and identically for `ElementTag`, `AbsorbingRegion` and `Region`).  Each
entry of `blocks` is a `(tag, cell count)` pair. -/
def shellTagArray (blocks : List (Nat × Nat)) : List Nat :=
  blocks.foldl (fun acc b => acc ++ List.replicate b.2 (u16 b.1)) []

/-- `full(n_cells, region.tag, dtype=uint16)`: the Region override written
after `create_region` for the PML and Rayleigh variants. -/
def regionArrayOf (t n : Nat) : List Nat := List.replicate n (u16 t)

/-- One masked numpy store
`ElementTag[ElementTag == old] = new` into a `uint16` array. -/
def substTag (old new : Nat) (l : List Nat) : List Nat :=
  l.map fun t => if t = old then u16 new else t

/-- The sequential retag loop
`for i, tag in enumerate(EleTags): ElementTag[ElementTag == tag] = PMLTags[tag]`. -/
def rewriteTags (l : List Nat) : List (Nat × Nat) → List Nat
  | [] => l
  | p :: ps => rewriteTags (substTag p.1 p.2 l) ps

/-- Association lookup in the old-to-new tag map. -/
def assocTag (t : Nat) : List (Nat × Nat) → Option Nat
  | [] => none
  | p :: ps => if p.1 = t then some p.2 else assocTag t ps

/-- Insertion into a strictly sorted list, skipping duplicates. -/
def insertSorted (x : Nat) : List Nat → List Nat
  | [] => [x]
  | y :: ys =>
    if x < y then x :: y :: ys
    else if x = y then y :: ys
    else y :: insertSorted x ys

/-- `numpy.unique`: the sorted list of distinct values. -/
def sortedDedup (l : List Nat) : List Nat :=
  l.foldl (fun acc x => insertSorted x acc) []

/-- A material catalogue entry as read by the generator
(`mat.material_name`, `mat.material_type`). -/
structure MatInfo where
  material_name : String
  material_type : String
deriving DecidableEq, Repr

/-- An element catalogue entry as read by the generator
(`ele.element_type` and its material). -/
structure EleInfo where
  element_type : String
  mat : MatInfo
deriving DecidableEq, Repr

/-- `ele.element_type in ["stdBrick", "bbarBrick", "SSPbrick"]`. -/
def brickOk (e : EleInfo) : Bool :=
  decide (e.element_type = "stdBrick" ∨ e.element_type = "bbarBrick" ∨
    e.element_type = "SSPbrick")

/-- `mat.material_name == "ElasticIsotropic" and mat.material_type == "nDMaterial"`. -/
def matOk (e : EleInfo) : Bool :=
  decide (e.mat.material_name = "ElasticIsotropic" ∧ e.mat.material_type = "nDMaterial")

/-- Both PML element-compatibility checks. -/
def pmlChecksOk (e : EleInfo) : Bool := brickOk e && matOk e

/-- The parameter set of one created PML3D element
(`create_element("PML3D", ndof, mat, gamma=0.5, beta=0.25, eta=1/12,
ksi=1/48, PML_Thickness=numLayers*dx, m=2, R=1e-8, meshType="Box",
meshTypeParameters=[RD_center_x, RD_center_y, RD_center_z, RD_width_x,
RD_width_y, RD_Depth])`). -/
structure PMLParams where
  gamma : ℚ
  beta : ℚ
  eta : ℚ
  ksi : ℚ
  thickness : ℚ
  m : Nat
  bigR : ℚ
  meshType : String
  meshTypeParameters : List ℚ
deriving DecidableEq, Repr

/-- The parameters the source passes to every created PML3D element:
fixed damping coefficients, thickness `numLayers * dx` (where `dx` is the
leftover loop variable, the x-size of the LAST clipped cell), and the box
descriptor from the interior mesh bounds (`RD_center_z` is `zmax`). -/
def pmlParamsOf (numLayers : Nat) (dxLast : ℚ) (b : Box3) : PMLParams where
  gamma := Rat.divInt 1 2
  beta := Rat.divInt 1 4
  eta := Rat.divInt 1 12
  ksi := Rat.divInt 1 48
  thickness := qmul (Rat.divInt numLayers 1) dxLast
  m := 2
  bigR := Rat.divInt 1 100000000
  meshType := "Box"
  meshTypeParameters :=
    [qdiv (qadd b.xmax b.xmin) 2, qdiv (qadd b.ymax b.ymin) 2, b.zmax,
     qsub b.xmax b.xmin, qsub b.ymax b.ymin, qsub b.zmax b.zmin]

/-- Errors raised by `addAbsorbingLayer`: Python `ValueError` (validation)
versus `NotImplementedError` (unimplemented feature). -/
inductive AbsErr where
  | validation : String → AbsErr
  | notImplemented : String → AbsErr
deriving DecidableEq, Repr

def noMeshMsg : String := "No mesh found - Please assemble the mesh first"
def numLayersMsg : String := "Number of layers should be greater than 0"
def numPartitionsMsg : String := "Number of partitions should be greater or equal to 0"
def geometryMsg : String := "Geometry should be one of Rectangular or Cylindrical"
def algoMsg : String := "Partition algorithm should be one of kd-tree or metis"
def metisMsg : String := "Metis partitioning algorithm is not implemented yet"
def cylMsg : String := "Cylindrical absorbing layer is not implemented yet"
def typeMissingMsg : String := "Type of the absorbing layer should be provided"
def typeBadMsg : String := "Type of the absorbing layer should be one of PML, Rayleigh or ASDA"
def asdaMsg : String := "ASDA absorbing layer is not implemented yet"
def partitionsMsg : String :=
  "The number of partitions should be greater than 0 if your model has partitions"
def geomMismatchMsg : String :=
  "The PML layer mesh points are not matching with the original mesh points"
def ndfMismatchMsg : String :=
  "The PML layer node should have 9 dof and the original mesh should have at least 3 dof"
def brickMsg : String := "boundary elements should be of type stdBrick or bbarBrick or SSPbrick"
def elasticMsg : String := "boundary elements should have an ElasticIsotropic material"

/-- Modelled from the spec: the element registry
(`self.element.get_element` / `self.element.create_element` of
`elementBase.py`, which is not part of the sources at hand) is an
externally owned catalogue keyed by integer tag in which the generator
creates new entries; tag allocation is modelled as consecutive fresh tags
starting at `freshBase`.  The per-tag loop of `_addRectangularAbsorbingLayer`
itself (checks, parameters, the `PMLTags` map) is mirrored from the source:
for each distinct tag, check the element type and material, create one
PML3D element, and record `old ↦ new` in the map. -/
def pmlCreate (getElement : Nat → EleInfo) (params : PMLParams) :
    Nat → List Nat → Except AbsErr (List (Nat × Nat × PMLParams))
  | _, [] => .ok []
  | freshBase, t :: ts =>
    if brickOk (getElement t) = false then .error (.validation brickMsg)
    else if matOk (getElement t) = false then .error (.validation elasticMsg)
    else
      match pmlCreate getElement params (freshBase + 1) ts with
      | .error e => .error e
      | .ok rest => .ok ((t, freshBase, params) :: rest)

/-- The whole PML element-retag phase: `unique` of the shell element tags,
the creation loop, then the sequential rewrite of the shell `ElementTag`
array through the `PMLTags` map (each store truncating to `uint16`). -/
def pmlRetagPhase (getElement : Nat → EleInfo) (freshBase numLayers : Nat) (dxLast : ℚ)
    (meshB : Box3) (shellEleTags : List Nat) :
    Except AbsErr (List (Nat × Nat × PMLParams) × List Nat) :=
  match pmlCreate getElement (pmlParamsOf numLayers dxLast meshB) freshBase
      (sortedDedup shellEleTags) with
  | .error e => .error e
  | .ok created =>
    .ok (created, rewriteTags shellEleTags (created.map fun e => (e.1, e.2.1)))

/-- The cell-data record of one cell: `MaterialTag`, `ElementTag`,
`AbsorbingRegion`, `Region` and `Core`. -/
structure CellTags where
  materialTag : Nat
  elementTag : Nat
  absorbingRegion : Nat
  regionTag : Nat
  core : Nat
deriving DecidableEq, Repr

/-- The assembled mesh: points with per-point `ndf`, and cells with their
tag record. -/
structure AMesh where
  points : List Pt3
  ndf : List Nat
  cells : List (BoxCell × CellTags)
deriving DecidableEq, Repr

/-- `mesh.cell_data["Core"].max()` (0 for an empty mesh; the source would
fail on an empty array). -/
def maxCore (m : AMesh) : Nat := (m.cells.map fun c => c.2.core).foldl max 0

/-- The persistent program state touched by `addAbsorbingLayer`: the
`AssembeledMesh` of the assembler and the equal-DOF constraint collection. -/
structure ProgState where
  assembledMesh : Option AMesh
  constraints : List EqualDof
deriving DecidableEq, Repr

/-- The geometric library operations the model does not re-derive
(pyvista/VTK behaviours with no simple closed form): the crinkle
surface-clip that extracts the boundary cells, the point-deduplication of
`combine(merge_points=True)` + `clean(tolerance=1e-6)`, the spatial
k-d-tree partitioner (`numPartitions > 1` only) returning a group id per
shell cell, and the point-merging `merge(..., merge_points=True)` used by
the Rayleigh variant.  Every theorem about the pipeline holds for every
choice of these operations. -/
structure GeomEngine where
  clip : AMesh → List (BoxCell × CellTags)
  dedup : List Pt3 → List Pt3
  spatialPart : Nat → Nat → List Nat
  mergeMesh : AMesh → AMesh → AMesh

/-- The external registries consumed by the generator: element lookup by
tag, the next tag `create_element` will allocate, and the tag of the
region created by `create_region`. -/
structure Registries where
  getElement : Nat → EleInfo
  freshEleTag : Nat
  regionTag : Nat

/-- The `Core` assignment of the shell (source lines 696 to 708): for more
than one partition, scatter `group + num_partitions + 1` through the
spatial partitioner groups; for exactly one partition, fill with
`num_partitions + 1`; otherwise leave the initial zeros. -/
def shellCoreAssign (numPartitions : Int) (numPrev : Nat) (groups : List Nat) (n : Nat) :
    List Nat :=
  if 1 < numPartitions then groups.map fun g => g + numPrev + 1
  else if numPartitions = 1 then List.replicate n (numPrev + 1)
  else List.replicate n 0

/-- The body of `_addRectangularAbsorbingLayer` after all its argument
validation: clip, regionize, extrude, broadcast the `uint16` tag arrays,
remove the interior-overlapping shell cells, clean, retag (PML), assign
cores, override `Region` (unless `matchDamping`), zero the interior
`AbsorbingRegion`, merge into the persistent mesh, and stitch (PML).
`Sum.inl` is a raised Python exception carrying the program state at the
moment of the raise; `Sum.inr` is a normal return carrying the returned
value (`none` models Python `None`: the source function has no `return`
statement). -/
def rectBuild (eng : GeomEngine) (regs : Registries) (st : ProgState) (mesh : AMesh)
    (numLayers numPartitions : Int) (matchDamping : Bool) (ty : String) (ndof : Nat)
    (mergeFlag : Bool) (numPrev : Nat) :
    Sum (ProgState × AbsErr) (ProgState × Option Bool) :=
  let clipped := eng.clip mesh
  let centers := clipped.map fun c => centroid c.1
  let cBox := bboxOf centers
  let regionsL := centers.map fun p => absRegion (faceFlags eps6 cBox p)
  let dxLast : ℚ :=
    match clipped.getLast? with
    | some c => qabs (qsub (cellBounds c.1).xmax (cellBounds c.1).xmin)
    | none => 0
  let shellRaw : List (BoxCell × CellTags) :=
    (clipped.zip regionsL).flatMap fun cr =>
      (extrudeCell numLayers.toNat cr.2 cr.1.1).map fun bc =>
        (bc,
         { materialTag := u16 cr.1.2.materialTag, elementTag := u16 cr.1.2.elementTag,
           absorbingRegion := u16 cr.2, regionTag := u16 cr.1.2.regionTag, core := 0 })
  let shellKept := shellRaw.filter fun c => !(overlaps (cellBounds c.1) cBox)
  let shellPts := eng.dedup (shellKept.flatMap fun c => corners c.1)
  let retag : Except AbsErr (List Nat) :=
    if ty = "PML" then
      match pmlRetagPhase regs.getElement regs.freshEleTag numLayers.toNat dxLast
          (bboxOf mesh.points) (shellKept.map fun c => c.2.elementTag) with
      | .error e => .error e
      | .ok pr => .ok pr.2
    else .ok (shellKept.map fun c => c.2.elementTag)
  match retag with
  | .error e => .inl (st, e)
  | .ok eleFinal =>
    let n := shellKept.length
    let cores := shellCoreAssign numPartitions numPrev (eng.spatialPart numPartitions.toNat n) n
    let regFinal : List Nat :=
      if matchDamping then shellKept.map fun c => c.2.regionTag
      else List.replicate n (u16 regs.regionTag)
    let shellCells : List (BoxCell × CellTags) :=
      (shellKept.zip ((eleFinal.zip cores).zip regFinal)).map fun z =>
        (z.1.1,
         { z.1.2 with elementTag := z.2.1.1, core := z.2.1.2, regionTag := z.2.2 })
    let interior : AMesh :=
      { mesh with cells := mesh.cells.map fun c => (c.1, { c.2 with absorbingRegion := 0 }) }
    let shellMesh : AMesh :=
      { points := shellPts, ndf := List.replicate shellPts.length ndof, cells := shellCells }
    let merged : AMesh :=
      if mergeFlag then eng.mergeMesh interior shellMesh
      else
        { points := interior.points ++ shellMesh.points,
          ndf := interior.ndf ++ shellMesh.ndf,
          cells := interior.cells ++ shellMesh.cells }
    let st1 : ProgState := { st with assembledMesh := some merged }
    if ty = "PML" then
      let ipts := interfacePointsOf mesh.points
      match stitchPhase merged.points (fun i => merged.ndf.getD i 0) ipts with
      | (cs, some .geometric) =>
        .inl ({ st1 with constraints := st1.constraints ++ cs }, .validation geomMismatchMsg)
      | (cs, some .ndfMismatch) =>
        .inl ({ st1 with constraints := st1.constraints ++ cs }, .validation ndfMismatchMsg)
      | (cs, none) => .inr ({ st1 with constraints := st1.constraints ++ cs }, none)
    else .inr (st1, none)

/-- `_addRectangularAbsorbingLayer`: the re-validation prologue of the
helper (mesh presence, `numLayers`, `numPartitions`, algorithm, `metis`,
the `type` keyword with the ASDA raise, and the partition-consistency
check) followed by `rectBuild`. -/
def rectangularAbsorbingLayer (eng : GeomEngine) (regs : Registries) (st : ProgState)
    (numLayers numPartitions : Int) (partitionAlgo : String) (matchDamping : Bool)
    (absLayerType : Option String) :
    Sum (ProgState × AbsErr) (ProgState × Option Bool) :=
  match st.assembledMesh with
  | none => .inl (st, .validation noMeshMsg)
  | some mesh =>
    if numLayers < 1 then .inl (st, .validation numLayersMsg)
    else if numPartitions < 0 then .inl (st, .validation numPartitionsMsg)
    else if ¬(partitionAlgo = "kd-tree" ∨ partitionAlgo = "metis") then
      .inl (st, .validation algoMsg)
    else if partitionAlgo = "metis" then .inl (st, .notImplemented metisMsg)
    else
      match absLayerType with
      | none => .inl (st, .validation typeMissingMsg)
      | some ty =>
        if ¬(ty = "PML" ∨ ty = "Rayleigh" ∨ ty = "ASDA") then
          .inl (st, .validation typeBadMsg)
        else if ty = "ASDA" then .inl (st, .notImplemented asdaMsg)
        else
          let ndof : Nat := if ty = "PML" then 9 else 3
          let mergeFlag : Bool := ty = "Rayleigh"
          let numPrev : Nat := maxCore mesh
          if numPartitions = 0 ∧ 0 < numPrev then .inl (st, .validation partitionsMsg)
          else
            rectBuild eng regs st mesh numLayers numPartitions matchDamping ty ndof
              mergeFlag numPrev

/-- `addAbsorbingLayer`: argument validation (mesh presence, `numLayers`,
`numPartitions`, geometry, algorithm, the metis raise), then dispatch to
the rectangular helper or the Cylindrical `NotImplementedError`. -/
def addAbsorbingLayer (eng : GeomEngine) (regs : Registries) (st : ProgState)
    (numLayers numPartitions : Int) (partitionAlgo geometry : String) (matchDamping : Bool)
    (absLayerType : Option String) :
    Sum (ProgState × AbsErr) (ProgState × Option Bool) :=
  match st.assembledMesh with
  | none => .inl (st, .validation noMeshMsg)
  | some _ =>
    if numLayers < 1 then .inl (st, .validation numLayersMsg)
    else if numPartitions < 0 then .inl (st, .validation numPartitionsMsg)
    else if ¬(geometry = "Rectangular" ∨ geometry = "Cylindrical") then
      .inl (st, .validation geometryMsg)
    else if ¬(partitionAlgo = "kd-tree" ∨ partitionAlgo = "metis") then
      .inl (st, .validation algoMsg)
    else if partitionAlgo = "metis" then .inl (st, .notImplemented metisMsg)
    else if geometry = "Rectangular" then
      rectangularAbsorbingLayer eng regs st numLayers numPartitions partitionAlgo
        matchDamping absLayerType
    else .inl (st, .notImplemented cylMsg)

/-- Whether a pipeline outcome is a normal return with value `None`. -/
def isSuccessNone : Sum (ProgState × AbsErr) (ProgState × Option Bool) → Bool
  | .inr (_, none) => true
  | _ => false

/-- The unit-cube cell. -/
def unitCell : BoxCell := ⟨⟨0, 0, 0⟩, ⟨1, 1, 1⟩⟩

/-- A one-element assembled interior mesh (unit cube, `MaterialTag = 1`,
`ElementTag = 1`, `Region = 1`, `Core = 0`, `ndf = 3` at all 8 points). -/
def exMesh : AMesh where
  points := corners unitCell
  ndf := List.replicate 8 3
  cells := [(unitCell, ⟨1, 1, 0, 1, 0⟩)]

/-- Program state holding the one-element assembled mesh. -/
def exState : ProgState where
  assembledMesh := some exMesh
  constraints := []

/-- A concrete geometry engine for evaluating the pipeline on the
one-element mesh: its single cell touches every boundary face, so the
crinkle clip returns it; the point dedup and mesh merge are taken as the
identity and plain concatenation. -/
def exEngine : GeomEngine where
  clip := fun m => m.cells
  dedup := id
  spatialPart := fun _ n => List.replicate n 0
  mergeMesh := fun a b => ⟨a.points ++ b.points, a.ndf ++ b.ndf, a.cells ++ b.cells⟩

/-- Concrete registries: every element is a compatible `stdBrick` with an
`ElasticIsotropic` nDMaterial, fresh element tags start at 2, and the
created damping region gets tag 1. -/
def exRegs : Registries where
  getElement := fun _ => ⟨"stdBrick", ⟨"ElasticIsotropic", "nDMaterial"⟩⟩
  freshEleTag := 2
  regionTag := 1

/-- A two-cell interior mesh with nonuniform cell sizes: a large cell
`[0,4] × [0,1] × [0,1]` and a small cell `[9/5,11/5] × [1,2] × [0,1]`.
Both touch the mesh boundary, so the crinkle clip keeps both. -/
def c4cells : List BoxCell :=
  [⟨⟨0, 0, 0⟩, ⟨4, 1, 1⟩⟩,
   ⟨⟨Rat.divInt 9 5, 1, 0⟩, ⟨Rat.divInt 11 5, 2, 1⟩⟩]

/-- A shell cell produced by extruding the small cell of `c4cells` (region
17, normal `(1, 1, -1)`): it survives the removal step although its
centroid `(12/5, 3/2, 1/2)` lies inside the interior bounding box
`[0,4] × [0,2] × [0,1]`. -/
def c4bad : BoxCell := ⟨⟨Rat.divInt 11 5, 1, 0⟩, ⟨Rat.divInt 13 5, 2, 1⟩⟩

/-- An `ndf` point-data array whose index-0 node has 9 DOFs and whose
other nodes have 3. -/
def ndfNineFirst : Nat → Nat := fun i => if i = 0 then 9 else 3

/-- An `ndf` point-data array whose index-0 node has 3 DOFs and whose
other nodes have 9. -/
def ndfThreeFirst : Nat → Nat := fun i => if i = 0 then 3 else 9

/-- A merged mesh of two coincident points (an interior point and the
shell point stitched onto it). -/
def c2merged : List Pt3 := [⟨0, 0, 0⟩, ⟨0, 0, 0⟩]

/-- A one-point interior mesh for the stitching round trip. -/
def c2interior : List Pt3 := [⟨0, 0, 0⟩]

/-- Shell element-tag array with duplicates, for the retag phase. -/
def exEleTags : List Nat := [3, 3, 7]

/-- The one-element mesh, already partitioned (`Core = 2`). -/
def exMeshPart : AMesh := { exMesh with cells := [(unitCell, ⟨1, 1, 0, 1, 2⟩)] }

/-- Program state holding the partitioned one-element mesh. -/
def exStatePart : ProgState where
  assembledMesh := some exMeshPart
  constraints := []

/-- Program state with no assembled mesh. -/
def emptyState : ProgState where
  assembledMesh := none
  constraints := []

/-- Interior-mesh bounding box for the retag-phase witness. -/
def c6box : Box3 := ⟨0, 1, 0, 1, 0, 1⟩

/-- The created-elements list of the retag-phase witness. -/
def c6created : List (Nat × Nat × PMLParams) :=
  [(3, 10, pmlParamsOf 2 1 c6box), (7, 11, pmlParamsOf 2 1 c6box)]

/-- Whether a pipeline outcome is a normal return with value `True`. -/
def isSuccessTrue : Sum (ProgState × AbsErr) (ProgState × Option Bool) → Bool
  | .inr (_, some true) => true
  | _ => false

theorem qadd_eq (a b : ℚ) : qadd a b = a + b := by
  have ha : ((a.den : ℤ)) ≠ 0 := Int.natCast_ne_zero.mpr a.den_nz
  have hb : ((b.den : ℤ)) ≠ 0 := Int.natCast_ne_zero.mpr b.den_nz
  rw [qadd]
  conv_rhs => rw [← Rat.num_divInt_den a, ← Rat.num_divInt_den b]
  rw [Rat.divInt_add_divInt _ _ ha hb]

theorem qsub_eq (a b : ℚ) : qsub a b = a - b := by
  have ha : ((a.den : ℤ)) ≠ 0 := Int.natCast_ne_zero.mpr a.den_nz
  have hb : ((b.den : ℤ)) ≠ 0 := Int.natCast_ne_zero.mpr b.den_nz
  rw [qsub]
  conv_rhs => rw [← Rat.num_divInt_den a, ← Rat.num_divInt_den b]
  rw [Rat.divInt_sub_divInt _ _ ha hb]

theorem qmul_eq (a b : ℚ) : qmul a b = a * b := by
  rw [qmul]
  conv_rhs => rw [← Rat.num_divInt_den a, ← Rat.num_divInt_den b]
  rw [Rat.divInt_mul_divInt']

theorem qdiv_eq (a b : ℚ) : qdiv a b = a / b := by
  rw [qdiv]
  conv_rhs => rw [← Rat.num_divInt_den a, ← Rat.num_divInt_den b]
  rw [Rat.divInt_div_divInt]

theorem qabs_eq (a : ℚ) : qabs a = |a| := by
  rcases lt_or_le a 0 with h | h
  · simp [qabs, h, abs_of_neg h]
  · simp [qabs, not_lt.mpr h, abs_of_nonneg h]

theorem qmin_eq (a b : ℚ) : qmin a b = min a b := by
  rw [qmin, min_def]

theorem qmax_eq (a b : ℚ) : qmax a b = max a b := by
  rw [qmax, max_def]

theorem qmin_le_mid (a b : ℚ) : qmin a b ≤ qdiv (qadd a b) 2 := by
  rw [qmin_eq, qdiv_eq, qadd_eq]
  rcases le_total a b with h | h
  · rw [min_eq_left h]; linarith
  · rw [min_eq_right h]; linarith

theorem mid_le_qmax (a b : ℚ) : qdiv (qadd a b) 2 ≤ qmax a b := by
  rw [qmax_eq, qdiv_eq, qadd_eq]
  rcases le_total a b with h | h
  · rw [max_eq_right h]; linarith
  · rw [max_eq_left h]; linarith

theorem overlaps_false_centroid (c : BoxCell) (b : Box3)
    (h : overlaps (cellBounds c) b = false) : inBox b (centroid c) = false := by
  by_contra hne
  have hin : inBox b (centroid c) = true := by
    cases hx : inBox b (centroid c) with
    | true => rfl
    | false => exact absurd hx hne
  simp only [inBox, centroid, Bool.and_eq_true, decide_eq_true_eq] at hin
  obtain ⟨⟨⟨⟨⟨hx1, hx2⟩, hy1⟩, hy2⟩, hz1⟩, hz2⟩ := hin
  have : overlaps (cellBounds c) b = true := by
    simp only [overlaps, cellBounds, Bool.and_eq_true, decide_eq_true_eq]
    refine ⟨⟨⟨⟨⟨?_, ?_⟩, ?_⟩, ?_⟩, ?_⟩, ?_⟩
    · exact le_trans (qmin_le_mid c.lo.x c.hi.x) hx2
    · exact le_trans hx1 (mid_le_qmax c.lo.x c.hi.x)
    · exact le_trans (qmin_le_mid c.lo.y c.hi.y) hy2
    · exact le_trans hy1 (mid_le_qmax c.lo.y c.hi.y)
    · exact le_trans (qmin_le_mid c.lo.z c.hi.z) hz2
    · exact le_trans hz1 (mid_le_qmax c.lo.z c.hi.z)
  rw [this] at h
  exact absurd h (by simp)

set_option maxRecDepth 10000 in
/-- C4 counterexample: on the two-cell nonuniform mesh `c4cells` with one
layer, the shell cell `c4bad` survives the removal step even though its
centroid lies within the bounding box of the original assembled mesh, so
the intersection of the centroid set of the final shell with the interior
bounding box is NOT empty. -/
theorem c4_counterexample :
    c4bad ∈ shellAfterRemoval 1 c4cells ∧
    inBox (bboxOf (c4cells.flatMap corners)) (centroid c4bad) = true := by
  exact ⟨by decide, by decide⟩

/-- C4 (amended): the removal step drops exactly the shell cells whose
bounds intersect the bounding box of the clipped-mesh cell CENTERS
(`find_cells_within_bounds(cellCenters.bounds)`), so every surviving shell
cell has its centroid outside the cell-centers bounding box — but not
necessarily outside the full mesh bounding box. -/
theorem c4_removal (numLayers : Nat) (cells : List BoxCell) (c : BoxCell)
    (h : c ∈ shellAfterRemoval numLayers cells) :
    inBox (bboxOf (cells.map centroid)) (centroid c) = false := by
  simp only [shellAfterRemoval] at h
  have hmem := List.mem_filter.mp h
  apply overlaps_false_centroid
  simpa using hmem.2

/-- C4 witness: the amended statement applied to the concrete surviving
cell of the two-cell mesh. -/
theorem c4_witness : inBox (bboxOf (c4cells.map centroid)) (centroid c4bad) = false :=
  c4_removal 1 c4cells c4bad (by decide)

/-- C3 counterexample: for a mesh whose clipped cell centers have a
degenerate bounding box (here a single cell, as in the one-element
end-to-end scenario), the cell matches left, front and bottom (and also
right and back), and the priority table assigns code 17, not 14 — so "a
cell matching left & front & bottom always gets code 14" fails. -/
theorem c3_counterexample :
    (faceFlags eps6 (bboxOf [centroid unitCell]) (centroid unitCell)).left = true ∧
    (faceFlags eps6 (bboxOf [centroid unitCell]) (centroid unitCell)).front = true ∧
    (faceFlags eps6 (bboxOf [centroid unitCell]) (centroid unitCell)).bottom = true ∧
    absRegion (faceFlags eps6 (bboxOf [centroid unitCell]) (centroid unitCell)) = 17 := by
  exact ⟨by decide, by decide, by decide, by decide⟩

/-- C3 (amended): region-code assignment is a deterministic function of
the face booleans with codes bounded by 17; a cell matching no face keeps
code 0 and any face match gives a code in 1..17; a cell matching left,
front and bottom always gets a three-face code (14..17) — exactly 14 when
it does not also match right or back — and never a single-face or
two-face code. -/
theorem c3_region_codes (l r f b bt : Bool) :
    absRegion ⟨l, r, f, b, bt⟩ ≤ 17 ∧
    ((l || r || f || b || bt) = false → absRegion ⟨l, r, f, b, bt⟩ = 0) ∧
    ((l || r || f || b || bt) = true → 1 ≤ absRegion ⟨l, r, f, b, bt⟩) ∧
    (l = true → f = true → bt = true →
      14 ≤ absRegion ⟨l, r, f, b, bt⟩ ∧ absRegion ⟨l, r, f, b, bt⟩ ≤ 17) ∧
    (l = true → f = true → bt = true → r = false → b = false →
      absRegion ⟨l, r, f, b, bt⟩ = 14) := by
  refine ⟨?_, ?_, ?_, ?_, ?_⟩ <;>
    cases l <;> cases r <;> cases f <;> cases b <;> cases bt <;> decide

/-- C3 witness: the amended statement at the pure left-front-bottom corner
flags, giving code 14. -/
theorem c3_witness : absRegion ⟨true, false, true, false, true⟩ = 14 :=
  (c3_region_codes true false true false true).2.2.2.2 rfl rfl rfl rfl rfl

/-- Shape of a successfully created equal-DOF constraint: the master is
always the `ndf = 3` node, the single slave always the `ndf = 9` node, and
the constrained DOFs are `[1, 2, 3]`. -/
theorem stitchPair_ok_shape (ndf : Nat → Nat) (i0 i1 : Nat) (c : EqualDof)
    (h : stitchPair ndf i0 i1 = .ok c) :
    ndf (c.master - 1) = 3 ∧ ∃ s, c.slaves = [s] ∧ ndf (s - 1) = 9 ∧ c.dofs = [1, 2, 3] := by
  unfold stitchPair at h
  by_cases h1 : ndf i0 = 9 ∧ ndf i1 = 3
  · rw [if_pos h1] at h
    cases h
    exact ⟨by simpa using h1.2, i0 + 1, rfl, by simpa using h1.1, rfl⟩
  · rw [if_neg h1] at h
    by_cases h2 : ndf i0 = 3 ∧ ndf i1 = 9
    · rw [if_pos h2] at h
      cases h
      exact ⟨by simpa using h2.1, i1 + 1, rfl, by simpa using h2.2, rfl⟩
    · rw [if_neg h2] at h
      cases h

/-- C1 counterexample: with the nearer neighbor (index 0) having
`ndf == 9` and the second (index 1) having `ndf == 3`, the source makes
node 2 (the `ndf == 3` node) the MASTER and node 1 (the `ndf == 9` node)
the slave — the opposite of the claimed designation. -/
theorem c1_counterexample :
    stitchPair ndfNineFirst 0 1 = .ok ⟨2, [1], [1, 2, 3]⟩ ∧
    ndfNineFirst (2 - 1) = 3 ∧ ndfNineFirst (1 - 1) = 9 := by
  exact ⟨rfl, by decide, by decide⟩

/-- C1 (amended): of the two nearest-neighbor points, the one with
`ndf == 3` is designated the master node and the one with `ndf == 9` the
slave node; the equal-DOF constraint ties DOFs {1,2,3} of the slave to the
master; and any other ndf combination raises a fatal error. -/
theorem c1_master_slave (ndf : Nat → Nat) (i0 i1 : Nat) :
    (∀ c, stitchPair ndf i0 i1 = .ok c →
      ndf (c.master - 1) = 3 ∧
      (∃ s, c.slaves = [s] ∧ ndf (s - 1) = 9 ∧ c.dofs = [1, 2, 3])) ∧
    (stitchPair ndf i0 i1 = .error .ndfMismatch ↔
      ¬((ndf i0 = 9 ∧ ndf i1 = 3) ∨ (ndf i0 = 3 ∧ ndf i1 = 9))) := by
  constructor
  · intro c hc
    obtain ⟨hm, s, hs, h9, hd⟩ := stitchPair_ok_shape ndf i0 i1 c hc
    exact ⟨hm, s, hs, h9, hd⟩
  · unfold stitchPair
    by_cases h1 : ndf i0 = 9 ∧ ndf i1 = 3
    · rw [if_pos h1]
      simp [h1]
    · rw [if_neg h1]
      by_cases h2 : ndf i0 = 3 ∧ ndf i1 = 9
      · rw [if_pos h2]
        simp [h1, h2]
      · rw [if_neg h2]
        simp [h1, h2]

/-- C1 witness: the amended statement at a concrete pair whose nearer
neighbor has `ndf == 3`: the constraint is created with master node 1
(the `ndf = 3` node) and slave node 2 (the `ndf = 9` node). -/
theorem c1_witness :
    ndfThreeFirst ((⟨1, [2], [1, 2, 3]⟩ : EqualDof).master - 1) = 3 ∧
    (∃ s, (⟨1, [2], [1, 2, 3]⟩ : EqualDof).slaves = [s] ∧
      ndfThreeFirst (s - 1) = 9 ∧ (⟨1, [2], [1, 2, 3]⟩ : EqualDof).dofs = [1, 2, 3]) :=
  (c1_master_slave ndfThreeFirst 0 1).1 ⟨1, [2], [1, 2, 3]⟩ rfl

theorem stitchPair_error_kind (ndf : Nat → Nat) (i0 i1 : Nat) (e : StitchErr)
    (h : stitchPair ndf i0 i1 = .error e) : e = .ndfMismatch := by
  unfold stitchPair at h
  by_cases h1 : ndf i0 = 9 ∧ ndf i1 = 3
  · rw [if_pos h1] at h; cases h
  · rw [if_neg h1] at h
    by_cases h2 : ndf i0 = 3 ∧ ndf i1 = 9
    · rw [if_pos h2] at h; cases h
    · rw [if_neg h2] at h; cases h; rfl

theorem stitchRun_not_geometric (ndf : Nat → Nat) :
    ∀ ps : List (Nat × Nat), (stitchRun ndf ps).2 ≠ some StitchErr.geometric
  | [] => by simp [stitchRun]
  | p :: rest => by
    simp only [stitchRun]
    cases hp : stitchPair ndf p.1 p.2 with
    | error e =>
      have := stitchPair_error_kind ndf p.1 p.2 e hp
      subst this
      simp
    | ok c =>
      simpa using stitchRun_not_geometric ndf rest

theorem stitchRun_none (ndf : Nat → Nat) :
    ∀ (ps : List (Nat × Nat)) (cs : List EqualDof), stitchRun ndf ps = (cs, none) →
      List.Forall₂ (fun p c => stitchPair ndf p.1 p.2 = .ok c) ps cs
  | [], cs, h => by
    simp only [stitchRun] at h
    cases h
    exact List.Forall₂.nil
  | p :: rest, cs, h => by
    simp only [stitchRun] at h
    cases hp : stitchPair ndf p.1 p.2 with
    | error e => rw [hp] at h; cases h
    | ok c =>
      rw [hp] at h
      have h1 : cs = c :: (stitchRun ndf rest).1 := (congrArg Prod.fst h).symm
      have h2 : (stitchRun ndf rest).2 = none := by
        simpa using congrArg Prod.snd h
      subst h1
      exact List.Forall₂.cons hp (stitchRun_none ndf rest _ (by rw [← h2]))

theorem stitchRun_mem_shape (ndf : Nat → Nat) :
    ∀ (ps : List (Nat × Nat)) (cs : List EqualDof), stitchRun ndf ps = (cs, none) →
      ∀ c ∈ cs, ndf (c.master - 1) = 3 ∧ ∃ s, c.slaves = [s] ∧ ndf (s - 1) = 9
  | [], cs, h => by
    simp only [stitchRun] at h
    cases h
    intro c hc
    cases hc
  | p :: rest, cs, h => by
    simp only [stitchRun] at h
    cases hp : stitchPair ndf p.1 p.2 with
    | error e => rw [hp] at h; cases h
    | ok c0 =>
      rw [hp] at h
      have h1 : cs = c0 :: (stitchRun ndf rest).1 := (congrArg Prod.fst h).symm
      have h2 : (stitchRun ndf rest).2 = none := by
        simpa using congrArg Prod.snd h
      subst h1
      intro c hc
      rcases List.mem_cons.mp hc with hc0 | hcr
      · subst hc0
        obtain ⟨hm, s, hs, h9, _⟩ := stitchPair_ok_shape ndf p.1 p.2 c hp
        exact ⟨hm, s, hs, h9⟩
      · exact stitchRun_mem_shape ndf rest _ (by rw [← h2]) c hcr

/-- C2: for an interior mesh whose eligible boundary points are the
`interfacePointsOf` selection, the PML stitching phase raises the
geometric-consistency error exactly when the maximum 2-nearest-neighbor
distance exceeds the tolerance, and on success it creates exactly one
equal-DOF constraint per interface point, in point-index order, each
linking one `ndf = 3` node (the master) to one `ndf = 9` node (the
slave). -/
theorem c2_stitch_round_trip (mergedPts : List Pt3) (ndf : Nat → Nat) (meshPts : List Pt3)
    (_hm : 2 ≤ mergedPts.length) :
    ((stitchPhase mergedPts ndf (interfacePointsOf meshPts)).2 = some .geometric ↔
      tolSq < stitchMaxSq mergedPts (interfacePointsOf meshPts)) ∧
    ((stitchPhase mergedPts ndf (interfacePointsOf meshPts)).2 = none →
      (stitchPhase mergedPts ndf (interfacePointsOf meshPts)).1.length =
        (interfacePointsOf meshPts).length ∧
      List.Forall₂
        (fun p c =>
          stitchPair ndf ((nearest2 mergedPts p).1.1) ((nearest2 mergedPts p).2.1) = .ok c)
        (interfacePointsOf meshPts)
        (stitchPhase mergedPts ndf (interfacePointsOf meshPts)).1 ∧
      ∀ c ∈ (stitchPhase mergedPts ndf (interfacePointsOf meshPts)).1,
        ndf (c.master - 1) = 3 ∧ ∃ s, c.slaves = [s] ∧ ndf (s - 1) = 9) := by
  unfold stitchPhase
  by_cases hgeo : tolSq < stitchMaxSq mergedPts (interfacePointsOf meshPts)
  · rw [if_pos hgeo]
    exact ⟨by simpa using hgeo, by intro h; simp at h⟩
  · rw [if_neg hgeo]
    set qs := (interfacePointsOf meshPts).map fun p =>
      ((nearest2 mergedPts p).1.1, (nearest2 mergedPts p).2.1) with hqs
    constructor
    · constructor
      · intro h
        exact absurd h (stitchRun_not_geometric ndf qs)
      · intro h
        exact absurd h hgeo
    · intro hnone
      have hrun : stitchRun ndf qs = ((stitchRun ndf qs).1, none) := by
        rw [← hnone]
      have hf := stitchRun_none ndf qs _ hrun
      have hshape := stitchRun_mem_shape ndf qs _ hrun
      refine ⟨?_, ?_, hshape⟩
      · have := hf.length_eq
        rw [hqs, List.length_map] at this
        exact this.symm
      · rw [hqs] at hf
        exact List.forall₂_map_left_iff.mp hf

/-- C2 witness: the round-trip statement evaluated on the one-point
interior mesh with a coincident 9-DOF shell point: one interface point,
one constraint, no geometric error. -/
theorem c2_witness :
    ((stitchPhase c2merged ndfThreeFirst (interfacePointsOf c2interior)).2 = some .geometric ↔
      tolSq < stitchMaxSq c2merged (interfacePointsOf c2interior)) ∧
    ((stitchPhase c2merged ndfThreeFirst (interfacePointsOf c2interior)).2 = none →
      (stitchPhase c2merged ndfThreeFirst (interfacePointsOf c2interior)).1.length =
        (interfacePointsOf c2interior).length ∧
      List.Forall₂
        (fun p c =>
          stitchPair ndfThreeFirst ((nearest2 c2merged p).1.1) ((nearest2 c2merged p).2.1) =
            .ok c)
        (interfacePointsOf c2interior)
        (stitchPhase c2merged ndfThreeFirst (interfacePointsOf c2interior)).1 ∧
      ∀ c ∈ (stitchPhase c2merged ndfThreeFirst (interfacePointsOf c2interior)).1,
        ndfThreeFirst (c.master - 1) = 3 ∧
          ∃ s, c.slaves = [s] ∧ ndfThreeFirst (s - 1) = 9) :=
  c2_stitch_round_trip c2merged ndfThreeFirst c2interior (by decide)

theorem insertSorted_mem (x a : Nat) :
    ∀ l : List Nat, a ∈ insertSorted x l ↔ a = x ∨ a ∈ l
  | [] => by simp [insertSorted]
  | y :: ys => by
    simp only [insertSorted]
    by_cases h1 : x < y
    · rw [if_pos h1]; simp
    · rw [if_neg h1]
      by_cases h2 : x = y
      · rw [if_pos h2]
        subst h2
        simp only [List.mem_cons]
        constructor
        · intro h; exact Or.inr h
        · rintro (h | h)
          · exact Or.inl (by rw [h])
          · exact h
      · rw [if_neg h2]
        simp only [List.mem_cons, insertSorted_mem x a ys]
        tauto

theorem insertSorted_sorted (x : Nat) :
    ∀ l : List Nat, l.Sorted (· < ·) → (insertSorted x l).Sorted (· < ·)
  | [], _ => by simp [insertSorted]
  | y :: ys, h => by
    obtain ⟨hy, hys⟩ := List.sorted_cons.mp h
    simp only [insertSorted]
    by_cases h1 : x < y
    · rw [if_pos h1]
      rw [List.sorted_cons]
      constructor
      · intro b hb
        rcases List.mem_cons.mp hb with hb | hb
        · rw [hb]; exact h1
        · exact lt_trans h1 (hy b hb)
      · exact h
    · rw [if_neg h1]
      by_cases h2 : x = y
      · rw [if_pos h2]; exact h
      · rw [if_neg h2]
        have hyx : y < x := by omega
        rw [List.sorted_cons]
        constructor
        · intro b hb
          rcases (insertSorted_mem x b ys).mp hb with hb | hb
          · rw [hb]; exact hyx
          · exact hy b hb
        · exact insertSorted_sorted x ys hys

theorem foldl_insertSorted_sorted :
    ∀ (l : List Nat) (acc : List Nat), acc.Sorted (· < ·) →
      (l.foldl (fun acc x => insertSorted x acc) acc).Sorted (· < ·)
  | [], _, h => h
  | x :: xs, acc, h =>
    foldl_insertSorted_sorted xs (insertSorted x acc) (insertSorted_sorted x acc h)

theorem foldl_insertSorted_mem (a : Nat) :
    ∀ (l : List Nat) (acc : List Nat),
      a ∈ l.foldl (fun acc x => insertSorted x acc) acc ↔ a ∈ acc ∨ a ∈ l
  | [], acc => by simp
  | x :: xs, acc => by
    simp only [List.foldl_cons, foldl_insertSorted_mem a xs (insertSorted x acc),
      insertSorted_mem, List.mem_cons]
    tauto

theorem sortedDedup_sorted (l : List Nat) : (sortedDedup l).Sorted (· < ·) :=
  foldl_insertSorted_sorted l [] (by simp)

theorem sortedDedup_nodup (l : List Nat) : (sortedDedup l).Nodup :=
  (sortedDedup_sorted l).imp fun h => Nat.ne_of_lt h

theorem mem_sortedDedup (a : Nat) (l : List Nat) : a ∈ sortedDedup l ↔ a ∈ l := by
  rw [sortedDedup, foldl_insertSorted_mem]
  simp

theorem assocTag_none (t : Nat) :
    ∀ ps : List (Nat × Nat), t ∉ ps.map (fun pr => pr.1) → assocTag t ps = none
  | [], _ => rfl
  | pr :: ps, h => by
    simp only [List.map_cons, List.mem_cons] at h
    push_neg at h
    simp only [assocTag]
    rw [if_neg fun he => h.1 he.symm]
    exact assocTag_none t ps h.2

theorem assocTag_isSome (t : Nat) :
    ∀ ps : List (Nat × Nat), t ∈ ps.map (fun pr => pr.1) → (assocTag t ps).isSome = true
  | [], h => by simp at h
  | pr :: ps, h => by
    simp only [assocTag]
    by_cases he : pr.1 = t
    · rw [if_pos he]; rfl
    · rw [if_neg he]
      apply assocTag_isSome t ps
      simp only [List.map_cons, List.mem_cons] at h
      rcases h with h | h
      · exact absurd h.symm he
      · exact h

theorem rewriteTags_lookup :
    ∀ (ps : List (Nat × Nat)) (l : List Nat),
      (ps.map fun pr => pr.1).Nodup →
      (∀ pr ∈ ps, ∀ o ∈ ps.map fun pr2 => pr2.1, u16 pr.2 ≠ o) →
      rewriteTags l ps =
        l.map fun t => match assocTag t ps with | some nt => u16 nt | none => t
  | [], l, _, _ => by
    simp [rewriteTags, assocTag]
  | (o, nv) :: ps, l, hnd, hfr => by
    simp only [List.map_cons, List.nodup_cons] at hnd
    have hndp : (ps.map fun pr => pr.1).Nodup := hnd.2
    have hfrp : ∀ pr ∈ ps, ∀ o2 ∈ ps.map fun pr2 => pr2.1, u16 pr.2 ≠ o2 := by
      intro pr hpr o2 ho2
      exact hfr pr (List.mem_cons_of_mem _ hpr) o2
        (by simp only [List.map_cons]; exact List.mem_cons_of_mem _ ho2)
    have hnv : u16 nv ∉ ps.map fun pr => pr.1 := by
      intro hmem
      exact hfr (o, nv) (List.mem_cons_self _ _) (u16 nv)
        (by simp only [List.map_cons]; exact List.mem_cons_of_mem _ hmem) rfl
    simp only [rewriteTags, substTag]
    rw [rewriteTags_lookup ps _ hndp hfrp, List.map_map]
    apply List.map_congr_left
    intro t _
    simp only [Function.comp]
    by_cases ht : t = o
    · subst ht
      simp [assocTag, assocTag_none (u16 nv) ps hnv]
    · simp [assocTag, ht, Ne.symm ht]

theorem pmlCreate_ok (ge : Nat → EleInfo) (p : PMLParams) :
    ∀ (ts : List Nat) (fb : Nat) (cs : List (Nat × Nat × PMLParams)),
      pmlCreate ge p fb ts = .ok cs →
      cs.map (fun e => e.1) = ts ∧ ∀ e ∈ cs, e.2.2 = p
  | [], fb, cs, h => by
    simp only [pmlCreate] at h
    cases h
    simp
  | t :: ts, fb, cs, h => by
    simp only [pmlCreate] at h
    by_cases hb : brickOk (ge t) = false
    · rw [if_pos hb] at h; cases h
    · rw [if_neg hb] at h
      by_cases hmk : matOk (ge t) = false
      · rw [if_pos hmk] at h; cases h
      · rw [if_neg hmk] at h
        cases hrec : pmlCreate ge p (fb + 1) ts with
        | error e => rw [hrec] at h; cases h
        | ok rest =>
          rw [hrec] at h
          cases h
          obtain ⟨h1, h2⟩ := pmlCreate_ok ge p ts (fb + 1) rest hrec
          constructor
          · simp [h1]
          · intro e he
            rcases List.mem_cons.mp he with he0 | her
            · rw [he0]
            · exact h2 e her

theorem pmlCreate_error_iff (ge : Nat → EleInfo) (p : PMLParams) :
    ∀ (ts : List Nat) (fb : Nat),
      (∃ e, pmlCreate ge p fb ts = .error e) ↔ ∃ t ∈ ts, pmlChecksOk (ge t) = false
  | [], fb => by
    simp [pmlCreate]
  | t :: ts, fb => by
    simp only [pmlCreate]
    by_cases hb : brickOk (ge t) = false
    · rw [if_pos hb]
      constructor
      · intro _
        exact ⟨t, (List.mem_cons_self _ _), by simp [pmlChecksOk, hb]⟩
      · intro _
        exact ⟨.validation brickMsg, rfl⟩
    · rw [if_neg hb]
      by_cases hmk : matOk (ge t) = false
      · rw [if_pos hmk]
        constructor
        · intro _
          exact ⟨t, (List.mem_cons_self _ _), by simp [pmlChecksOk, hmk]⟩
        · intro _
          exact ⟨.validation elasticMsg, rfl⟩
      · rw [if_neg hmk]
        have hok : pmlChecksOk (ge t) = true := by
          simp only [pmlChecksOk, Bool.and_eq_true]
          exact ⟨by simpa using hb, by simpa using hmk⟩
        cases hrec : pmlCreate ge p (fb + 1) ts with
        | error e =>
          constructor
          · intro _
            have := (pmlCreate_error_iff ge p ts (fb + 1)).mp ⟨e, hrec⟩
            obtain ⟨t2, ht2, hbad⟩ := this
            exact ⟨t2, List.mem_cons_of_mem _ ht2, hbad⟩
          · intro _
            exact ⟨e, rfl⟩
        | ok rest =>
          constructor
          · rintro ⟨e, he⟩
            cases he
          · rintro ⟨t2, ht2, hbad⟩
            rcases List.mem_cons.mp ht2 with ht0 | htr
            · subst ht0
              rw [hok] at hbad
              cases hbad
            · have := (pmlCreate_error_iff ge p ts (fb + 1)).mpr ⟨t2, htr, hbad⟩
              obtain ⟨e, he⟩ := this
              rw [he] at hrec
              cases hrec

/-- C6: the PML retag phase creates exactly one absorbing element per
distinct element tag present in the shell (not per shell cell), each with
the fixed parameter set (gamma 1/2, beta 1/4, eta 1/12, ksi 1/48, m 2,
R 1e-8, thickness `numLayers * dx`, Box descriptor from the interior
bounds/center); it raises an input-validation error exactly when some
shell element tag maps to an element outside the three brick kinds or to
a non-ElasticIsotropic material; and (whenever the freshly allocated tags
do not collide, modulo 2^16, with the old ones) the `ElementTag` of every
shell cell is rewritten through the old-to-new map. -/
theorem c6_pml_elements (getElement : Nat → EleInfo) (freshBase numLayers : Nat)
    (dxLast : ℚ) (mb : Box3) (tags : List Nat) :
    (∀ created rew,
      pmlRetagPhase getElement freshBase numLayers dxLast mb tags = .ok (created, rew) →
      created.length = (sortedDedup tags).length ∧
      (∀ e ∈ created, e.2.2 = pmlParamsOf numLayers dxLast mb) ∧
      ((∀ nt ∈ created.map fun e => e.2.1, u16 nt ∉ tags) →
        (∀ t ∈ tags, (assocTag t (created.map fun e => (e.1, e.2.1))).isSome = true) ∧
        rew = tags.map fun t =>
          match assocTag t (created.map fun e => (e.1, e.2.1)) with
          | some nt => u16 nt
          | none => t)) ∧
    ((∃ e, pmlRetagPhase getElement freshBase numLayers dxLast mb tags = .error e) ↔
      ∃ t ∈ sortedDedup tags, pmlChecksOk (getElement t) = false) ∧
    pmlParamsOf numLayers dxLast mb =
      ⟨Rat.divInt 1 2, Rat.divInt 1 4, Rat.divInt 1 12, Rat.divInt 1 48,
       qmul (Rat.divInt numLayers 1) dxLast, 2, Rat.divInt 1 100000000, "Box",
       [qdiv (qadd mb.xmax mb.xmin) 2, qdiv (qadd mb.ymax mb.ymin) 2, mb.zmax,
        qsub mb.xmax mb.xmin, qsub mb.ymax mb.ymin, qsub mb.zmax mb.zmin]⟩ := by
  refine ⟨?_, ?_, rfl⟩
  · intro created rew h
    unfold pmlRetagPhase at h
    cases hrec : pmlCreate getElement (pmlParamsOf numLayers dxLast mb) freshBase
        (sortedDedup tags) with
    | error e => rw [hrec] at h; cases h
    | ok cr =>
      rw [hrec] at h
      injection h with h'
      have h1 : created = cr := (congrArg Prod.fst h').symm
      have h2 : rew = rewriteTags tags (cr.map fun e => (e.1, e.2.1)) :=
        (congrArg Prod.snd h').symm
      subst h1
      subst h2
      obtain ⟨hfst, hparams⟩ :=
        pmlCreate_ok getElement (pmlParamsOf numLayers dxLast mb) (sortedDedup tags)
          freshBase created hrec
      have holds : (created.map fun e => (e.1, e.2.1)).map (fun pr => pr.1) =
          sortedDedup tags := by
        rw [List.map_map]
        exact hfst
      refine ⟨by rw [← hfst, List.length_map], hparams, ?_⟩
      intro hfresh
      have hnd : ((created.map fun e => (e.1, e.2.1)).map fun pr => pr.1).Nodup := by
        rw [holds]
        exact sortedDedup_nodup tags
      have hfr : ∀ pr ∈ created.map fun e => (e.1, e.2.1),
          ∀ o ∈ (created.map fun e => (e.1, e.2.1)).map fun pr2 => pr2.1,
            u16 pr.2 ≠ o := by
        intro pr hpr o ho heq
        have hpr2 : pr.2 ∈ created.map fun e => e.2.1 := by
          obtain ⟨e, he, hpe⟩ := List.mem_map.mp hpr
          exact List.mem_map.mpr ⟨e, he, by rw [← hpe]⟩
        have hno : u16 pr.2 ∉ tags := hfresh pr.2 hpr2
        rw [holds] at ho
        exact hno (by rw [heq]; exact (mem_sortedDedup o tags).mp ho)
      constructor
      · intro t ht
        apply assocTag_isSome
        rw [holds, mem_sortedDedup]
        exact ht
      · exact rewriteTags_lookup (created.map fun e => (e.1, e.2.1)) tags hnd hfr
  · unfold pmlRetagPhase
    cases hrec : pmlCreate getElement (pmlParamsOf numLayers dxLast mb) freshBase
        (sortedDedup tags) with
    | error e =>
      constructor
      · intro _
        exact (pmlCreate_error_iff getElement (pmlParamsOf numLayers dxLast mb)
          (sortedDedup tags) freshBase).mp ⟨e, hrec⟩
      · intro _
        exact ⟨e, rfl⟩
    | ok cr =>
      constructor
      · rintro ⟨e, he⟩
        cases he
      · intro hbad
        obtain ⟨e, he⟩ := (pmlCreate_error_iff getElement (pmlParamsOf numLayers dxLast mb)
          (sortedDedup tags) freshBase).mpr hbad
        rw [he] at hrec
        cases hrec

/-- C6 witness: the retag phase on the tag array `[3, 3, 7]` with fresh
tags from 10: two elements created (for the distinct tags 3 and 7), each
with the fixed parameter set, and the shell array rewritten to
`[10, 10, 11]` through the map. -/
theorem c6_witness :
    c6created.length = (sortedDedup exEleTags).length ∧
    (∀ e ∈ c6created, e.2.2 = pmlParamsOf 2 1 c6box) ∧
    ((∀ t ∈ exEleTags, (assocTag t (c6created.map fun e => (e.1, e.2.1))).isSome = true) ∧
      [10, 10, 11] = exEleTags.map fun t =>
        match assocTag t (c6created.map fun e => (e.1, e.2.1)) with
        | some nt => u16 nt
        | none => t) := by
  have h :=
    ((c6_pml_elements (fun _ => ⟨"stdBrick", ⟨"ElasticIsotropic", "nDMaterial"⟩⟩) 10 2 1
        c6box exEleTags).1 c6created [10, 10, 11] rfl)
  exact ⟨h.1, h.2.1, h.2.2 (by decide)⟩

theorem shellTagArray_foldl (blocks : List (Nat × Nat)) :
    ∀ acc : List Nat,
      blocks.foldl (fun acc b => acc ++ List.replicate b.2 (u16 b.1)) acc =
        acc ++ blocks.flatMap fun b => List.replicate b.2 (b.1 % 65536) := by
  induction blocks with
  | nil => intro acc; simp
  | cons b bs ih =>
    intro acc
    simp only [List.foldl_cons, List.flatMap_cons, ih, List.append_assoc]
    rfl

/-- C10: every shell cell tag array (`MaterialTag`, `ElementTag`,
`AbsorbingRegion`, `Region`) is built as a numpy `uint16` array, so every
tag carried onto the shell — the broadcast per-block tags, the region tag
written after `create_region`, and the new PML element tags written through
the retag map — is reduced modulo 2^16; a tag of 65536 or more is silently
truncated (e.g. 65541 becomes 5 and 70000 becomes 4464), never rejected. -/
theorem c10_uint16_truncation :
    (∀ blocks : List (Nat × Nat),
      shellTagArray blocks = blocks.flatMap fun b => List.replicate b.2 (b.1 % 65536)) ∧
    (∀ t n : Nat, regionArrayOf t n = List.replicate n (t % 65536)) ∧
    (∀ (l : List Nat) (o nv : Nat),
      rewriteTags l [(o, nv)] = l.map fun t => if t = o then nv % 65536 else t) ∧
    shellTagArray [(65541, 2)] = [5, 5] ∧
    regionArrayOf 70000 1 = [4464] := by
  refine ⟨?_, ?_, ?_, by decide, by decide⟩
  · intro blocks
    rw [shellTagArray, shellTagArray_foldl]
    rfl
  · intro t n
    rfl
  · intro l o nv
    rfl

/-- C5: with `numPartitions == 1` every shell cell receives the identical
`Core` value `max(interior Core) + 1`; with `numPartitions == 0` on an
interior mesh whose maximum `Core` exceeds 0 the call raises a validation
error before any shell construction (the outcome is the same for every
geometry engine, with the program state unchanged); with
`numPartitions == 0` on an unpartitioned interior mesh the shell keeps
`Core = 0` everywhere. -/
theorem c5_partitioning :
    (∀ (numPrev : Nat) (groups : List Nat) (n : Nat),
      shellCoreAssign 1 numPrev groups n = List.replicate n (numPrev + 1)) ∧
    (∀ (eng : GeomEngine) (regs : Registries) (st : ProgState) (mesh : AMesh)
        (numLayers : Int) (ty : String),
      st.assembledMesh = some mesh → 1 ≤ numLayers → 0 < maxCore mesh →
      (ty = "PML" ∨ ty = "Rayleigh") →
      rectangularAbsorbingLayer eng regs st numLayers 0 "kd-tree" false (some ty) =
        .inl (st, .validation partitionsMsg)) ∧
    (∀ (groups : List Nat) (n : Nat), shellCoreAssign 0 0 groups n = List.replicate n 0) := by
  refine ⟨?_, ?_, ?_⟩
  · intro numPrev groups n
    rfl
  · intro eng regs st mesh numLayers ty hmesh hnl hcore hty
    have h1 : ¬(numLayers < 1) := by omega
    have h2 : ty ≠ "ASDA" := by
      rcases hty with h | h <;> simp [h]
    have h3 : ty = "PML" ∨ ty = "Rayleigh" ∨ ty = "ASDA" := by tauto
    simp [rectangularAbsorbingLayer, hmesh, h1, h2, h3, hcore]
    intro hp hr
    rcases hty with h | h
    · exact absurd h hp
    · exact absurd h hr
  · intro groups n
    rfl

/-- C5 witness: the partition facts at concrete inputs — one partition on
a mesh with maximum interior core 2 gives all shell cores 3, and a
zero-partition request on the already partitioned one-element mesh raises
the validation error with the state unchanged. -/
theorem c5_witness :
    shellCoreAssign 1 2 [0] 1 = List.replicate 1 3 ∧
    rectangularAbsorbingLayer exEngine exRegs exStatePart 1 0 "kd-tree" false (some "PML") =
      .inl (exStatePart, .validation partitionsMsg) :=
  ⟨c5_partitioning.1 2 [0] 1,
   c5_partitioning.2.1 exEngine exRegs exStatePart exMeshPart 1 "PML" rfl (by omega)
     (by decide) (Or.inl rfl)⟩

/-- C7: `addAbsorbingLayer` never returns `True`.  The docstring promises
`bool: True if the absorbing layer is added successfully`, but the helper
`_addRectangularAbsorbingLayer` has no return statement, so a successful
call returns Python `None` — as the concrete successful Rayleigh run on
the one-element mesh shows — and no run of the pipeline, for any engine,
registries, state or arguments, yields the value `True`. -/
theorem rectBuild_never_true (eng : GeomEngine) (regs : Registries) (st : ProgState)
    (mesh : AMesh) (nl np : Int) (md : Bool) (ty : String) (ndof : Nat) (mf : Bool)
    (numPrev : Nat) :
    isSuccessTrue (rectBuild eng regs st mesh nl np md ty ndof mf numPrev) = false := by
  unfold rectBuild
  simp only []
  split
  · rfl
  · split
    · split <;> rfl
    · rfl

theorem rectLayer_never_true (eng : GeomEngine) (regs : Registries) (st : ProgState)
    (nl np : Int) (pa : String) (md : Bool) (ty : Option String) :
    isSuccessTrue
      (rectangularAbsorbingLayer eng regs st nl np pa md ty) = false := by
  unfold rectangularAbsorbingLayer
  repeat' first
    | rfl
    | apply rectBuild_never_true
    | split
    | simp only []

/-- C7: `addAbsorbingLayer` never returns `True`.  The docstring promises
`bool: True if the absorbing layer is added successfully`, but the helper
`_addRectangularAbsorbingLayer` has no return statement, so a successful
call returns Python `None` — as the concrete successful Rayleigh run on
the one-element mesh shows — and no run of the pipeline, for any engine,
registries, state or arguments, yields the value `True`. -/
theorem c7_returns_none :
    isSuccessNone
      (addAbsorbingLayer exEngine exRegs exState 1 0 "kd-tree" "Rectangular" false
        (some "Rayleigh")) = true ∧
    (∀ (eng : GeomEngine) (regs : Registries) (st : ProgState) (nl np : Int)
        (pa g : String) (md : Bool) (ty : Option String),
      isSuccessTrue (addAbsorbingLayer eng regs st nl np pa g md ty) = false) := by
  refine ⟨by decide, ?_⟩
  intro eng regs st nl np pa g md ty
  unfold addAbsorbingLayer
  repeat' first
    | rfl
    | apply rectLayer_never_true
    | split

/-- C8: selecting an unimplemented feature (metis partitioning, Cylindrical
geometry, or the ASDA layer type) raises a `NotImplementedError`,
distinguishable by construction from a `ValueError`; ASDA raises during
argument dispatch, before any extrusion work (the outcome is independent of
the geometry engine and leaves the state unchanged); an unknown geometry,
algorithm, or type string instead raises a validation error. -/
theorem c8_unimplemented_errors :
    (∀ m1 m2 : String, AbsErr.notImplemented m1 ≠ AbsErr.validation m2) ∧
    (∀ (eng : GeomEngine) (regs : Registries) (st : ProgState) (mesh : AMesh)
        (nl np : Int) (g : String) (ty : Option String),
      st.assembledMesh = some mesh → 1 ≤ nl → 0 ≤ np →
      (g = "Rectangular" ∨ g = "Cylindrical") →
      addAbsorbingLayer eng regs st nl np "metis" g false ty =
        .inl (st, .notImplemented metisMsg)) ∧
    (∀ (eng : GeomEngine) (regs : Registries) (st : ProgState) (mesh : AMesh)
        (nl np : Int) (ty : Option String),
      st.assembledMesh = some mesh → 1 ≤ nl → 0 ≤ np →
      addAbsorbingLayer eng regs st nl np "kd-tree" "Cylindrical" false ty =
        .inl (st, .notImplemented cylMsg)) ∧
    (∀ (eng : GeomEngine) (regs : Registries) (st : ProgState) (mesh : AMesh)
        (nl np : Int),
      st.assembledMesh = some mesh → 1 ≤ nl → 0 ≤ np →
      addAbsorbingLayer eng regs st nl np "kd-tree" "Rectangular" false (some "ASDA") =
        .inl (st, .notImplemented asdaMsg)) ∧
    (∀ (eng : GeomEngine) (regs : Registries) (st : ProgState) (mesh : AMesh)
        (nl np : Int) (g : String) (ty : Option String),
      st.assembledMesh = some mesh → 1 ≤ nl → 0 ≤ np →
      ¬(g = "Rectangular" ∨ g = "Cylindrical") →
      addAbsorbingLayer eng regs st nl np "kd-tree" g false ty =
        .inl (st, .validation geometryMsg)) ∧
    (∀ (eng : GeomEngine) (regs : Registries) (st : ProgState) (mesh : AMesh)
        (nl np : Int) (pa : String) (ty : Option String),
      st.assembledMesh = some mesh → 1 ≤ nl → 0 ≤ np →
      ¬(pa = "kd-tree" ∨ pa = "metis") →
      addAbsorbingLayer eng regs st nl np pa "Rectangular" false ty =
        .inl (st, .validation algoMsg)) ∧
    (∀ (eng : GeomEngine) (regs : Registries) (st : ProgState) (mesh : AMesh)
        (nl np : Int) (ty : String),
      st.assembledMesh = some mesh → 1 ≤ nl → 0 ≤ np →
      ¬(ty = "PML" ∨ ty = "Rayleigh" ∨ ty = "ASDA") →
      addAbsorbingLayer eng regs st nl np "kd-tree" "Rectangular" false (some ty) =
        .inl (st, .validation typeBadMsg)) := by
  refine ⟨?_, ?_, ?_, ?_, ?_, ?_, ?_⟩
  · intro m1 m2 h
    cases h
  · intro eng regs st mesh nl np g ty hmesh hnl hnp hg
    have h1 : ¬(nl < 1) := by omega
    have h2 : ¬(np < 0) := by omega
    simp [addAbsorbingLayer, hmesh, h1, h2]
    intro hr
    rcases hg with h | h
    · exact absurd h hr
    · exact h
  · intro eng regs st mesh nl np ty hmesh hnl hnp
    have h1 : ¬(nl < 1) := by omega
    have h2 : ¬(np < 0) := by omega
    simp [addAbsorbingLayer, hmesh, h1, h2]
  · intro eng regs st mesh nl np hmesh hnl hnp
    have h1 : ¬(nl < 1) := by omega
    have h2 : ¬(np < 0) := by omega
    simp [addAbsorbingLayer, rectangularAbsorbingLayer, hmesh, h1, h2]
  · intro eng regs st mesh nl np g ty hmesh hnl hnp hg
    have h1 : ¬(nl < 1) := by omega
    have h2 : ¬(np < 0) := by omega
    simp [addAbsorbingLayer, hmesh, h1, h2, hg]
  · intro eng regs st mesh nl np pa ty hmesh hnl hnp hpa
    have h1 : ¬(nl < 1) := by omega
    have h2 : ¬(np < 0) := by omega
    have h3 : ¬(pa = "metis") := fun h => hpa (Or.inr h)
    simp [addAbsorbingLayer, hmesh, h1, h2, hpa, h3]
    intro h
    exact absurd (Or.inl h) hpa
  · intro eng regs st mesh nl np ty hmesh hnl hnp hty
    have h1 : ¬(nl < 1) := by omega
    have h2 : ¬(np < 0) := by omega
    simp [addAbsorbingLayer, rectangularAbsorbingLayer, hmesh, h1, h2, hty]

/-- C8 witness: each unimplemented or unknown selection evaluated on the
one-element mesh state. -/
theorem c8_witness :
    addAbsorbingLayer exEngine exRegs exState 1 0 "metis" "Rectangular" false (some "PML") =
      .inl (exState, .notImplemented metisMsg) ∧
    addAbsorbingLayer exEngine exRegs exState 1 0 "kd-tree" "Cylindrical" false (some "PML") =
      .inl (exState, .notImplemented cylMsg) ∧
    addAbsorbingLayer exEngine exRegs exState 1 0 "kd-tree" "Rectangular" false (some "ASDA") =
      .inl (exState, .notImplemented asdaMsg) ∧
    addAbsorbingLayer exEngine exRegs exState 1 0 "kd-tree" "Spherical" false (some "PML") =
      .inl (exState, .validation geometryMsg) ∧
    addAbsorbingLayer exEngine exRegs exState 1 0 "rcb" "Rectangular" false (some "PML") =
      .inl (exState, .validation algoMsg) ∧
    addAbsorbingLayer exEngine exRegs exState 1 0 "kd-tree" "Rectangular" false (some "XYZ") =
      .inl (exState, .validation typeBadMsg) :=
  ⟨c8_unimplemented_errors.2.1 exEngine exRegs exState exMesh 1 0 "Rectangular" (some "PML")
      rfl (by omega) (by omega) (Or.inl rfl),
   c8_unimplemented_errors.2.2.1 exEngine exRegs exState exMesh 1 0 (some "PML")
      rfl (by omega) (by omega),
   c8_unimplemented_errors.2.2.2.1 exEngine exRegs exState exMesh 1 0
      rfl (by omega) (by omega),
   c8_unimplemented_errors.2.2.2.2.1 exEngine exRegs exState exMesh 1 0 "Spherical"
      (some "PML") rfl (by omega) (by omega) (by simp),
   c8_unimplemented_errors.2.2.2.2.2.1 exEngine exRegs exState exMesh 1 0 "rcb"
      (some "PML") rfl (by omega) (by omega) (by simp),
   c8_unimplemented_errors.2.2.2.2.2.2 exEngine exRegs exState exMesh 1 0 "XYZ"
      rfl (by omega) (by omega) (by simp)⟩

/-- C9: on every precondition or validation failure of `addAbsorbingLayer`
— missing assembled mesh, `numLayers < 1`, `numPartitions < 0`, an unknown
geometry, algorithm or type string, a missing type keyword, or
`numPartitions == 0` on a partitioned mesh — the `ValueError` is raised
with the program state (in particular the persistent assembled mesh)
returned exactly as it was, for every geometry engine and registry. -/
theorem c9_no_mutation_on_validation :
    (∀ (eng : GeomEngine) (regs : Registries) (st : ProgState) (nl np : Int)
        (pa g : String) (md : Bool) (ty : Option String),
      st.assembledMesh = none →
      addAbsorbingLayer eng regs st nl np pa g md ty = .inl (st, .validation noMeshMsg)) ∧
    (∀ (eng : GeomEngine) (regs : Registries) (st : ProgState) (mesh : AMesh) (nl np : Int)
        (pa g : String) (md : Bool) (ty : Option String),
      st.assembledMesh = some mesh → nl < 1 →
      addAbsorbingLayer eng regs st nl np pa g md ty =
        .inl (st, .validation numLayersMsg)) ∧
    (∀ (eng : GeomEngine) (regs : Registries) (st : ProgState) (mesh : AMesh) (nl np : Int)
        (pa g : String) (md : Bool) (ty : Option String),
      st.assembledMesh = some mesh → 1 ≤ nl → np < 0 →
      addAbsorbingLayer eng regs st nl np pa g md ty =
        .inl (st, .validation numPartitionsMsg)) ∧
    (∀ (eng : GeomEngine) (regs : Registries) (st : ProgState) (mesh : AMesh) (nl np : Int)
        (g : String) (md : Bool) (ty : Option String),
      st.assembledMesh = some mesh → 1 ≤ nl → 0 ≤ np →
      ¬(g = "Rectangular" ∨ g = "Cylindrical") →
      addAbsorbingLayer eng regs st nl np "kd-tree" g md ty =
        .inl (st, .validation geometryMsg)) ∧
    (∀ (eng : GeomEngine) (regs : Registries) (st : ProgState) (mesh : AMesh) (nl np : Int)
        (pa : String) (md : Bool) (ty : Option String),
      st.assembledMesh = some mesh → 1 ≤ nl → 0 ≤ np →
      ¬(pa = "kd-tree" ∨ pa = "metis") →
      addAbsorbingLayer eng regs st nl np pa "Rectangular" md ty =
        .inl (st, .validation algoMsg)) ∧
    (∀ (eng : GeomEngine) (regs : Registries) (st : ProgState) (mesh : AMesh) (nl np : Int)
        (md : Bool),
      st.assembledMesh = some mesh → 1 ≤ nl → 0 ≤ np →
      addAbsorbingLayer eng regs st nl np "kd-tree" "Rectangular" md none =
        .inl (st, .validation typeMissingMsg)) ∧
    (∀ (eng : GeomEngine) (regs : Registries) (st : ProgState) (mesh : AMesh) (nl np : Int)
        (md : Bool) (ty : String),
      st.assembledMesh = some mesh → 1 ≤ nl → 0 ≤ np →
      ¬(ty = "PML" ∨ ty = "Rayleigh" ∨ ty = "ASDA") →
      addAbsorbingLayer eng regs st nl np "kd-tree" "Rectangular" md (some ty) =
        .inl (st, .validation typeBadMsg)) ∧
    (∀ (eng : GeomEngine) (regs : Registries) (st : ProgState) (mesh : AMesh) (nl : Int)
        (md : Bool) (ty : String),
      st.assembledMesh = some mesh → 1 ≤ nl → 0 < maxCore mesh →
      (ty = "PML" ∨ ty = "Rayleigh") →
      addAbsorbingLayer eng regs st nl 0 "kd-tree" "Rectangular" md (some ty) =
        .inl (st, .validation partitionsMsg)) := by
  refine ⟨?_, ?_, ?_, ?_, ?_, ?_, ?_, ?_⟩
  · intro eng regs st nl np pa g md ty hmesh
    simp [addAbsorbingLayer, hmesh]
  · intro eng regs st mesh nl np pa g md ty hmesh hnl
    simp [addAbsorbingLayer, hmesh, hnl]
  · intro eng regs st mesh nl np pa g md ty hmesh hnl hnp
    have h1 : ¬(nl < 1) := by omega
    simp [addAbsorbingLayer, hmesh, h1, hnp]
  · intro eng regs st mesh nl np g md ty hmesh hnl hnp hg
    have h1 : ¬(nl < 1) := by omega
    have h2 : ¬(np < 0) := by omega
    simp [addAbsorbingLayer, hmesh, h1, h2, hg]
  · intro eng regs st mesh nl np pa md ty hmesh hnl hnp hpa
    have h1 : ¬(nl < 1) := by omega
    have h2 : ¬(np < 0) := by omega
    have h3 : ¬(pa = "metis") := fun h => hpa (Or.inr h)
    simp [addAbsorbingLayer, hmesh, h1, h2, hpa, h3]
    intro h
    exact absurd (Or.inl h) hpa
  · intro eng regs st mesh nl np md hmesh hnl hnp
    have h1 : ¬(nl < 1) := by omega
    have h2 : ¬(np < 0) := by omega
    simp [addAbsorbingLayer, rectangularAbsorbingLayer, hmesh, h1, h2]
  · intro eng regs st mesh nl np md ty hmesh hnl hnp hty
    have h1 : ¬(nl < 1) := by omega
    have h2 : ¬(np < 0) := by omega
    simp [addAbsorbingLayer, rectangularAbsorbingLayer, hmesh, h1, h2, hty]
  · intro eng regs st mesh nl md ty hmesh hnl hcore hty
    have h1 : ¬(nl < 1) := by omega
    have h2 : ty ≠ "ASDA" := by
      rcases hty with h | h <;> simp [h]
    have h3 : ty = "PML" ∨ ty = "Rayleigh" ∨ ty = "ASDA" := by tauto
    simp [addAbsorbingLayer, rectangularAbsorbingLayer, hmesh, h1, h2, h3, hcore]
    intro hp hr
    rcases hty with h | h
    · exact absurd h hp
    · exact absurd h hr

/-- C9 witness: each validation failure evaluated concretely, returning
the program state unchanged. -/
theorem c9_witness :
    addAbsorbingLayer exEngine exRegs emptyState 1 0 "kd-tree" "Rectangular" false
        (some "PML") = .inl (emptyState, .validation noMeshMsg) ∧
    addAbsorbingLayer exEngine exRegs exState 0 0 "kd-tree" "Rectangular" false
        (some "PML") = .inl (exState, .validation numLayersMsg) ∧
    addAbsorbingLayer exEngine exRegs exState 1 (-1) "kd-tree" "Rectangular" false
        (some "PML") = .inl (exState, .validation numPartitionsMsg) ∧
    addAbsorbingLayer exEngine exRegs exState 1 0 "kd-tree" "Spherical" false
        (some "PML") = .inl (exState, .validation geometryMsg) ∧
    addAbsorbingLayer exEngine exRegs exState 1 0 "rcb" "Rectangular" false
        (some "PML") = .inl (exState, .validation algoMsg) ∧
    addAbsorbingLayer exEngine exRegs exState 1 0 "kd-tree" "Rectangular" false none =
      .inl (exState, .validation typeMissingMsg) ∧
    addAbsorbingLayer exEngine exRegs exState 1 0 "kd-tree" "Rectangular" true
        (some "XYZ") = .inl (exState, .validation typeBadMsg) ∧
    addAbsorbingLayer exEngine exRegs exStatePart 1 0 "kd-tree" "Rectangular" false
        (some "Rayleigh") = .inl (exStatePart, .validation partitionsMsg) :=
  ⟨c9_no_mutation_on_validation.1 exEngine exRegs emptyState 1 0 "kd-tree" "Rectangular"
      false (some "PML") rfl,
   c9_no_mutation_on_validation.2.1 exEngine exRegs exState exMesh 0 0 "kd-tree"
      "Rectangular" false (some "PML") rfl (by omega),
   c9_no_mutation_on_validation.2.2.1 exEngine exRegs exState exMesh 1 (-1) "kd-tree"
      "Rectangular" false (some "PML") rfl (by omega) (by omega),
   c9_no_mutation_on_validation.2.2.2.1 exEngine exRegs exState exMesh 1 0 "Spherical"
      false (some "PML") rfl (by omega) (by omega) (by simp),
   c9_no_mutation_on_validation.2.2.2.2.1 exEngine exRegs exState exMesh 1 0 "rcb"
      false (some "PML") rfl (by omega) (by omega) (by simp),
   c9_no_mutation_on_validation.2.2.2.2.2.1 exEngine exRegs exState exMesh 1 0 false
      rfl (by omega) (by omega),
   c9_no_mutation_on_validation.2.2.2.2.2.2.1 exEngine exRegs exState exMesh 1 0 true
      "XYZ" rfl (by omega) (by omega) (by simp),
   c9_no_mutation_on_validation.2.2.2.2.2.2.2 exEngine exRegs exStatePart exMeshPart 1
      false "Rayleigh" rfl (by omega) (by decide) (Or.inr rfl)⟩
